import Mathlib

/-!
Verification of the session-state and persistence engine of the
bilingual vocabulary-learning client (`src/App.tsx`, `src/types.ts`,
and the service module).  Each definition is a shallow embedding of
one source function; theorems settle the spec's claims about them.
-/

/- ### Data model, from the current `types.ts` (the version with
`is_sentence`, `original_query` and `sentence_analysis`). -/

structure TranslatedTerm where
  word : String
  cn : String
deriving Repr, DecidableEq

structure Etymology where
  root : String
  root_cn : String
  pt_derivatives : List TranslatedTerm
  en_derivatives : List TranslatedTerm
deriving Repr, DecidableEq

structure Example where
  pt : String
  cn : String
deriving Repr, DecidableEq

structure Synonym where
  word : String
  distinction : String
deriving Repr, DecidableEq

structure ConjugationForms where
  eu : String
  tu : String
  ele : String
  nos : String
  vos : String
  eles : String
deriving Repr, DecidableEq

structure Conjugation where
  tense : String
  forms : ConjugationForms
deriving Repr, DecidableEq

structure SentenceBreakdown where
  word : String
  meaning : String
  role : String
deriving Repr, DecidableEq

structure SentenceAnalysis where
  translation : String
  breakdown : List SentenceBreakdown
  grammar_notes : String
  cultural_context : String
deriving Repr, DecidableEq

/-- The `WordEntry` interface: a resolved lookup.  Word-specific and
sentence-specific fields are optional, discriminated by `is_sentence`. -/
structure WordEntry where
  id : String
  term : String
  original_query : Option String
  is_sentence : Bool
  definition : Option String
  definition_en : Option String
  ipa : Option String
  examples : Option (List Example)
  synonyms : Option (List Synonym)
  etymology : Option Etymology
  conjugations : Option (List Conjugation)
  sentence_analysis : Option SentenceAnalysis
  casual_explanation : String
  timestamp : Nat
deriving Repr, DecidableEq

inductive VerbType where
  | ar
  | er
  | ir
deriving Repr, DecidableEq

structure StaticVerb where
  word : String
  cn : String
  type : VerbType
  examples : Option (List Example)
deriving Repr, DecidableEq

/-- `StoryResponse` with the history fields (`id`, `timestamp`,
`words_used`). -/
structure StoryResponse where
  id : String
  timestamp : Nat
  words_used : List String
  pt_story : String
  cn_translation : String
deriving Repr, DecidableEq

inductive ViewMode where
  | SEARCH
  | NOTEBOOK
  | FLASHCARDS
  | STORY
deriving Repr, DecidableEq

/- ### History Cache (`handleSearch`, App.tsx lines 221-225)

```
setHistory(prev => {
  const filtered = prev.filter(h => h.term.toLowerCase() !== entry.term.toLowerCase());
  return [entry, ...filtered].slice(0, 20);
});
``` -/

/-- One `record(entry)` step of the History Cache. -/
def recordHistory (entry : WordEntry) (prev : List WordEntry) : List WordEntry :=
  (entry :: prev.filter (fun h => h.term.toLower != entry.term.toLower)).take 20

/-- Folding a sequence of `record` calls over the initial (empty) history,
the state the component starts from. -/
def runHistory (es : List WordEntry) : List WordEntry :=
  es.foldl (fun acc e => recordHistory e acc) []

/-- The History Cache invariant: at most 20 elements, and no two elements
share a term under case-insensitive comparison. -/
def HistoryInv (h : List WordEntry) : Prop :=
  h.length ≤ 20 ∧ h.Pairwise (fun a b => a.term.toLower ≠ b.term.toLower)

theorem recordHistory_inv (e : WordEntry) (h : List WordEntry)
    (hinv : HistoryInv h) : HistoryInv (recordHistory e h) := by
  refine ⟨List.length_take_le _ _, ?_⟩
  refine List.Pairwise.sublist (List.take_sublist _ _) ?_
  refine List.Pairwise.cons ?_ (hinv.2.filter _)
  intro b hb
  have hmem := List.of_mem_filter hb
  have hne : b.term.toLower ≠ e.term.toLower := by
    simpa using hmem
  exact fun hcontra => hne hcontra.symm

theorem runHistory_inv_aux (es : List WordEntry) :
    ∀ h : List WordEntry, HistoryInv h →
      HistoryInv (es.foldl (fun acc e => recordHistory e acc) h) := by
  induction es with
  | nil => intro h hh; simpa using hh
  | cons e es ih =>
      intro h hh
      simpa using ih _ (recordHistory_inv e h hh)

/-- Claim C1: for every sequence of `record(entry)` operations on the
History Cache (each one: drop elements whose term matches the new term
case-insensitively, prepend, truncate to 20), the resulting history has
length at most 20 and never contains two entries whose terms are equal
under case-insensitive comparison. -/
theorem c1_history_bounded_and_deduplicated (es : List WordEntry) :
    (runHistory es).length ≤ 20 ∧
    (runHistory es).Pairwise (fun a b => a.term.toLower ≠ b.term.toLower) :=
  runHistory_inv_aux es [] ⟨by simp, List.Pairwise.nil⟩

/- ### Notebook Set (`toggleSave`, App.tsx lines 244-252)

```
const exists = notebook.find(n => n.term === currentEntry.term);
if (exists) {
  setNotebook(prev => prev.filter(n => n.term !== currentEntry.term));
} else {
  setNotebook(prev => [currentEntry, ...prev]);
}
```
`find` returns an object (always truthy) or `undefined`, so the branch
condition is exactly term membership under exact-case equality. -/

/-- One `toggle(entry)` step of the Notebook Set. -/
def toggleSave (entry : WordEntry) (notebook : List WordEntry) : List WordEntry :=
  if notebook.any (fun n => n.term == entry.term) then
    notebook.filter (fun n => n.term != entry.term)
  else
    entry :: notebook

/-- Sample word entry used for concrete counterexamples and witnesses. -/
def mkSampleEntry (i term defn : String) : WordEntry :=
  { id := i
    term := term
    original_query := none
    is_sentence := false
    definition := some defn
    definition_en := none
    ipa := none
    examples := none
    synonyms := none
    etymology := none
    conjugations := none
    sentence_analysis := none
    casual_explanation := ""
    timestamp := 0 }

def sampleCasa : WordEntry := mkSampleEntry "1" "casa" "house"

def sampleLivro : WordEntry := mkSampleEntry "2" "livro" "book"

/-- Claim C3, counterexample: toggling twice with a term that is already
present (and not at the front) does not restore the prior notebook: the
entry is removed and then re-prepended, moving it to the front. -/
theorem c3_counterexample :
    toggleSave sampleLivro (toggleSave sampleLivro [sampleCasa, sampleLivro]) ≠
      [sampleCasa, sampleLivro] := by decide

/-- Claim C3 amended: for every notebook state containing no element whose
term equals `e.term` (exact-case), toggling with `e` and then with any
entry of the same term restores the notebook to exactly its prior state:
same elements, same payloads, same order. -/
theorem c3_toggle_roundtrip_restores (nb : List WordEntry) (e e' : WordEntry)
    (hterm : e'.term = e.term) (habsent : ∀ x ∈ nb, x.term ≠ e.term) :
    toggleSave e' (toggleSave e nb) = nb := by
  have h1 : nb.any (fun n => n.term == e.term) = false := by
    rw [List.any_eq_false]
    intro x hx
    simpa using habsent x hx
  have hstep : toggleSave e nb = e :: nb := by
    rw [toggleSave, h1]
    simp
  rw [hstep, toggleSave]
  have h2 : (e :: nb).any (fun n => n.term == e'.term) = true := by
    simp [hterm]
  rw [h2]
  simp only [if_true]
  rw [List.filter_cons]
  have he : (e.term != e'.term) = false := by simp [hterm]
  rw [he]
  simp only [Bool.false_eq_true, if_false]
  rw [List.filter_eq_self]
  intro x hx
  simpa [hterm] using habsent x hx

/-- Claim C3 witness: a concrete run of the amended round trip, with the
toggled term absent from the notebook. -/
theorem c3_toggle_roundtrip_witness :
    sampleCasa.term = sampleCasa.term ∧
    (∀ x ∈ [sampleLivro], x.term ≠ sampleCasa.term) ∧
    toggleSave sampleCasa (toggleSave sampleCasa [sampleLivro]) = [sampleLivro] :=
  ⟨rfl, by decide,
    c3_toggle_roundtrip_restores [sampleLivro] sampleCasa sampleCasa rfl (by decide)⟩

/- ### Search handler (`handleSearch`, App.tsx lines 210-232)

```
const handleSearch = async (term: string = searchTerm) => {
  if (!term.trim()) return;
  setLoading(true);
  setStoryData(null);
  setView(ViewMode.SEARCH);
  setSearchTerm(term);
  try {
    const entry = await lookupTerm(term);
    setCurrentEntry(entry);
    setHistory(prev => { ... recordHistory ... });
  } catch (error) {
    console.error(error);
    alert("Something went wrong. ...");
  } finally {
    setLoading(false);
  }
};
```
The external resolver `lookupTerm` is the only suspending call; it is
modelled as a function returning `Except`. -/

/-- JavaScript `String.prototype.trim`: strip leading and trailing
whitespace (a platform builtin, modelled over the character list so that
it evaluates inside the kernel). -/
def jsTrim (s : String) : String :=
  String.mk (((s.data.dropWhile Char.isWhitespace).reverse.dropWhile
    Char.isWhitespace).reverse)

structure ResolutionError where
  message : String
deriving Repr, DecidableEq

structure CompositionError where
  message : String
deriving Repr, DecidableEq

/-- The component state touched by the handlers. -/
structure AppState where
  view : ViewMode
  searchTerm : String
  loading : Bool
  currentEntry : Option WordEntry
  notebook : List WordEntry
  history : List WordEntry
  storyHistory : List StoryResponse
  storyData : Option StoryResponse
  loadingStory : Bool
deriving Repr, DecidableEq

/-- Outcome of one `handleSearch` run: the state after the handler
completes, whether the external resolver was invoked, and whether the
failure alert was shown. -/
structure SearchOutcome where
  state : AppState
  resolverCalled : Bool
  alerted : Bool
deriving Repr, DecidableEq

def handleSearch (resolve : String → Except ResolutionError WordEntry)
    (term : String) (s : AppState) : SearchOutcome :=
  if jsTrim term = "" then
    { state := s, resolverCalled := false, alerted := false }
  else
    let s1 := { s with loading := true, storyData := none,
                       view := ViewMode.SEARCH, searchTerm := term }
    match resolve term with
    | Except.ok entry =>
        { state := { s1 with currentEntry := some entry,
                             history := recordHistory entry s1.history,
                             loading := false },
          resolverCalled := true, alerted := false }
    | Except.error _ =>
        { state := { s1 with loading := false },
          resolverCalled := true, alerted := true }

/-- Claim C6: when the external resolver fails on a (non-blank, hence
actually resolved) query, the handler surfaces the failure via the alert
and leaves the current entry, the History Cache, the Notebook Set and the
Story Log all unchanged. -/
theorem c6_resolution_failure_preserves_state
    (resolve : String → Except ResolutionError WordEntry)
    (term : String) (s : AppState) (err : ResolutionError)
    (hterm : jsTrim term ≠ "") (hfail : resolve term = Except.error err) :
    (handleSearch resolve term s).state.currentEntry = s.currentEntry ∧
    (handleSearch resolve term s).state.history = s.history ∧
    (handleSearch resolve term s).state.notebook = s.notebook ∧
    (handleSearch resolve term s).state.storyHistory = s.storyHistory ∧
    (handleSearch resolve term s).resolverCalled = true ∧
    (handleSearch resolve term s).alerted = true := by
  rw [handleSearch, if_neg hterm, hfail]
  exact ⟨rfl, rfl, rfl, rfl, rfl, rfl⟩

def sampleState : AppState :=
  { view := ViewMode.NOTEBOOK
    searchTerm := "old"
    loading := false
    currentEntry := some sampleLivro
    notebook := [sampleLivro]
    history := [sampleCasa]
    storyHistory := []
    storyData := none
    loadingStory := false }

/-- A resolver that always fails, standing in for the external lookup
when the network or parse step errors. -/
def failingResolve : String → Except ResolutionError WordEntry :=
  fun _ => Except.error { message := "network" }

/-- Claim C6 witness: a concrete failing lookup leaves the four
collections unchanged and raises the alert. -/
theorem c6_resolution_failure_witness :
    jsTrim "casa" ≠ "" ∧
    failingResolve "casa" = Except.error { message := "network" } ∧
    ((handleSearch failingResolve "casa" sampleState).state.currentEntry =
        sampleState.currentEntry ∧
      (handleSearch failingResolve "casa" sampleState).state.history =
        sampleState.history ∧
      (handleSearch failingResolve "casa" sampleState).state.notebook =
        sampleState.notebook ∧
      (handleSearch failingResolve "casa" sampleState).state.storyHistory =
        sampleState.storyHistory ∧
      (handleSearch failingResolve "casa" sampleState).resolverCalled = true ∧
      (handleSearch failingResolve "casa" sampleState).alerted = true) :=
  ⟨by decide, rfl,
    c6_resolution_failure_preserves_state failingResolve "casa" sampleState
      { message := "network" } (by decide) rfl⟩

/-- Claim C10: a query whose trimmed form is empty makes `handleSearch` a
complete no-op: the resolver is never invoked and the state (current
entry, history, view mode, loading flag, and everything else) is
unchanged. -/
theorem c10_blank_query_is_noop
    (resolve : String → Except ResolutionError WordEntry)
    (term : String) (s : AppState) (hblank : jsTrim term = "") :
    (handleSearch resolve term s).state = s ∧
    (handleSearch resolve term s).resolverCalled = false := by
  rw [handleSearch, if_pos hblank]
  exact ⟨rfl, rfl⟩

/-- Claim C10 witness: a whitespace-only query leaves a concrete state
untouched and never calls the resolver. -/
theorem c10_blank_query_witness :
    jsTrim "   " = "" ∧
    ((handleSearch failingResolve "   " sampleState).state = sampleState ∧
      (handleSearch failingResolve "   " sampleState).resolverCalled = false) :=
  ⟨by decide, c10_blank_query_is_noop failingResolve "   " sampleState (by decide)⟩

/- ### Story generation (`handleGenerateStory`, App.tsx lines 254-270)

```
if (notebook.length < 3) {
  alert("Save at least 3 words to generate a story!");
  return;
}
setLoadingStory(true);
const words = notebook.slice(0, 10).map(w => w.term);
try {
  const story = await generateStoryFromWords(words);
  setStoryData(story);
  setStoryHistory(prev => [story, ...prev].slice(0, 10));
} catch (e) {
  alert("Failed to generate story");
} finally {
  setLoadingStory(false);
}
``` -/

structure StoryOutcome where
  composeCalled : Bool
  storyHistory : List StoryResponse
  storyData : Option StoryResponse
  alerted : Bool
deriving Repr, DecidableEq

def handleGenerateStory
    (compose : List String → Except CompositionError StoryResponse)
    (notebook : List WordEntry) (storyHistory : List StoryResponse)
    (storyData : Option StoryResponse) : StoryOutcome :=
  if notebook.length < 3 then
    { composeCalled := false, storyHistory := storyHistory,
      storyData := storyData, alerted := true }
  else
    let words := (notebook.take 10).map (fun w => w.term)
    match compose words with
    | Except.ok story =>
        { composeCalled := true,
          storyHistory := (story :: storyHistory).take 10,
          storyData := some story, alerted := false }
    | Except.error _ =>
        { composeCalled := true, storyHistory := storyHistory,
          storyData := storyData, alerted := true }

/-- Claim C5: with fewer than 3 notebook entries the story trigger never
invokes the external composer and leaves the Story Log unchanged. -/
theorem c5_story_guard_blocks_small_notebook
    (compose : List String → Except CompositionError StoryResponse)
    (notebook : List WordEntry) (log : List StoryResponse)
    (cur : Option StoryResponse) (hsmall : notebook.length < 3) :
    (handleGenerateStory compose notebook log cur).composeCalled = false ∧
    (handleGenerateStory compose notebook log cur).storyHistory = log := by
  rw [handleGenerateStory, if_pos hsmall]
  exact ⟨rfl, rfl⟩

/-- A composer that always fails; the guard must reject before it can
even be consulted. -/
def failingCompose : List String → Except CompositionError StoryResponse :=
  fun _ => Except.error { message := "unavailable" }

/-- Claim C5 witness: a 2-entry notebook does not call the composer and
keeps the Story Log intact. -/
theorem c5_story_guard_witness :
    [sampleCasa, sampleLivro].length < 3 ∧
    ((handleGenerateStory failingCompose [sampleCasa, sampleLivro] [] none).composeCalled
        = false ∧
      (handleGenerateStory failingCompose [sampleCasa, sampleLivro] [] none).storyHistory
        = []) :=
  ⟨by decide,
    c5_story_guard_blocks_small_notebook failingCompose
      [sampleCasa, sampleLivro] [] none (by decide)⟩

/- ### Persistence loader (startup effect, App.tsx lines 182-191)

```
const saved = localStorage.getItem('samba_notebook');
if (saved) setNotebook(JSON.parse(saved));
const savedHistory = localStorage.getItem('samba_history');
if (savedHistory) setHistory(JSON.parse(savedHistory));
const savedStoryHistory = localStorage.getItem('samba_story_history');
if (savedStoryHistory) setStoryHistory(JSON.parse(savedStoryHistory));
```

`localStorage.getItem` returns the stored string or `null` (modelled as
`Option String`; the truthiness guard also skips the empty string).
`JSON.parse` is a platform builtin, modelled as an abstract
`String → Option α` where `none` stands for a thrown `SyntaxError`.
There is no `try`/`catch` around the calls, so a parse failure escapes
the effect as an exception, modelled as `Except.error`. -/

inductive PersistenceError where
  | parseFailure
deriving Repr, DecidableEq

/-- Loading one persisted blob, exactly as the effect does it: a missing
or falsy (empty) stored string leaves the initial `[]` state; otherwise
the string is fed to `JSON.parse`, whose failure propagates uncaught. -/
def loadBlob {α : Type} (parse : String → Option (List α))
    (stored : Option String) : Except PersistenceError (List α) :=
  match stored with
  | none => Except.ok []
  | some s =>
      if s = "" then Except.ok []
      else
        match parse s with
        | some v => Except.ok v
        | none => Except.error PersistenceError.parseFailure

/-- The whole startup effect: the three blobs are loaded in sequence in
one effect body, so the first uncaught parse failure aborts the rest. -/
def loadAllBlobs (parseEntries : String → Option (List WordEntry))
    (parseStories : String → Option (List StoryResponse))
    (nb hist stories : Option String) :
    Except PersistenceError
      (List WordEntry × List WordEntry × List StoryResponse) := do
  let n ← loadBlob parseEntries nb
  let h ← loadBlob parseEntries hist
  let s ← loadBlob parseStories stories
  pure (n, h, s)

/-- Claim C2 (contradicted by the code): a missing blob does load as the
empty sequence, but a stored string that `JSON.parse` rejects makes the
loader raise an uncaught error instead of degrading to the empty
sequence — the startup effect has no `try`/`catch`. -/
theorem c2_malformed_blob_raises
    (parse : String → Option (List WordEntry)) (s : String)
    (hbad : parse s = none) (hne : s ≠ "") :
    loadBlob parse (some s) = Except.error PersistenceError.parseFailure ∧
    loadBlob parse none = (Except.ok [] :
      Except PersistenceError (List WordEntry)) := by
  constructor
  · rw [loadBlob]
    rw [if_neg hne, hbad]
  · rfl

/-- A parse stand-in recording that `JSON.parse` throws on the
malformed blob `"\x7b"` (an unterminated object). -/
def rejectingParse : String → Option (List WordEntry) :=
  fun _ => none

/-- Claim C2 witness: loading the concrete malformed blob `"\x7b"` raises
the parse failure, while the missing blob loads as `[]`. -/
theorem c2_malformed_blob_witness :
    rejectingParse "\x7b" = none ∧ "\x7b" ≠ "" ∧
    (loadBlob rejectingParse (some "\x7b") =
        Except.error PersistenceError.parseFailure ∧
      loadBlob rejectingParse none = (Except.ok [] :
        Except PersistenceError (List WordEntry))) :=
  ⟨rfl, by decide, c2_malformed_blob_raises rejectingParse "\x7b" rfl (by decide)⟩

/- ### Entry resolution (`lookupTerm`, services module, lines 491-497)

```
return {
  id: Date.now().toString(),
  original_query: term, // Save what the user actually typed
  timestamp: Date.now(),
  ...data
};
```

`data` is the JSON-decoded model response; its schema has no `id`,
`original_query` or `timestamp` keys, so the spread never overrides the
three fields written above.  `Date.now()` is passed in as `now`. -/

/-- The shape of the decoded model response (the `responseSchema` of the
lookup request): `term` and `is_sentence` are required, the variant
fields nullable. -/
structure ResolvedData where
  term : String
  is_sentence : Bool
  definition : Option String
  definition_en : Option String
  ipa : Option String
  examples : Option (List Example)
  synonyms : Option (List Synonym)
  conjugations : Option (List Conjugation)
  etymology : Option Etymology
  sentence_analysis : Option SentenceAnalysis
  casual_explanation : String
deriving Repr, DecidableEq

/-- The entry constructed by `lookupTerm` from the raw query `raw`, the
decoded response `data` and the clock reading `now`. -/
def lookupTerm (now : Nat) (raw : String) (data : ResolvedData) : WordEntry :=
  { id := toString now
    term := data.term
    original_query := some raw
    is_sentence := data.is_sentence
    definition := data.definition
    definition_en := data.definition_en
    ipa := data.ipa
    examples := data.examples
    synonyms := data.synonyms
    etymology := data.etymology
    conjugations := data.conjugations
    sentence_analysis := data.sentence_analysis
    casual_explanation := data.casual_explanation
    timestamp := now }

/-- A decoded response whose canonical term equals the raw query. -/
def sampleResolvedCasa : ResolvedData :=
  { term := "casa"
    is_sentence := false
    definition := some "house"
    definition_en := some "house"
    ipa := some "kaza"
    examples := none
    synonyms := none
    conjugations := none
    etymology := none
    sentence_analysis := none
    casual_explanation := "" }

/-- Claim C4, counterexample: with raw input `"casa"` resolving to the
identical canonical term `"casa"`, the produced entry still carries
`original_query = some "casa"` — the field is not absent when input and
term coincide. -/
theorem c4_counterexample :
    (lookupTerm 1700000000000 "casa" sampleResolvedCasa).term = "casa" ∧
    (lookupTerm 1700000000000 "casa" sampleResolvedCasa).original_query ≠ none := by
  constructor
  · rfl
  · decide

/-- Claim C4 amended: every entry produced by `lookupTerm` carries the
supplied fresh id (`Date.now().toString()`) and timestamp, and its
`original_query` is always present and equal to the literal raw input,
whether or not the input differs from the canonical term (the
differs-from-term comparison happens only at display time). -/
theorem c4_lookup_provenance (now : Nat) (raw : String) (data : ResolvedData) :
    (lookupTerm now raw data).id = toString now ∧
    (lookupTerm now raw data).timestamp = now ∧
    (lookupTerm now raw data).original_query = some raw :=
  ⟨rfl, rfl, rfl⟩

/- ### Flashcard deck (`renderFlashcards` and deck state, App.tsx)

State (lines 177-180): `fcIndex`, `fcFlipped`, `fcSource`, `verbFilter`.
The effect at lines 205-208 resets index and flip when source or filter
changes; nothing resets them when the notebook itself changes.

```
const getCards = () => {
  if (fcSource === 'NOTEBOOK') return notebook;
  return COMMON_VERBS.filter(v => verbFilter === 'ALL' || v.type === verbFilter.toLowerCase());
};
```

Navigation (lines 857-870):
```
onClick={() => { setFcFlipped(false); setFcIndex(i => i > 0 ? i - 1 : cards.length - 1); }}
onClick={() => { setFcFlipped(false); setFcIndex(i => i < cards.length - 1 ? i + 1 : 0); }}
```
(The controls are rendered only when `cards.length > 0`.) -/

/-- A deck card is either a saved entry or a static verb — the two
shapes `getCards` can return. -/
inductive Card where
  | entry : WordEntry → Card
  | verb : StaticVerb → Card
deriving Repr, DecidableEq

inductive FcSource where
  | NOTEBOOK
  | VERBS
deriving Repr, DecidableEq

inductive VerbFilter where
  | ALL
  | AR
  | ER
  | IR
deriving Repr, DecidableEq

/-- `verbFilter === 'ALL' || v.type === verbFilter.toLowerCase()`. -/
def verbMatches (f : VerbFilter) (v : StaticVerb) : Bool :=
  match f, v.type with
  | VerbFilter.ALL, _ => true
  | VerbFilter.AR, VerbType.ar => true
  | VerbFilter.ER, VerbType.er => true
  | VerbFilter.IR, VerbType.ir => true
  | _, _ => false

structure DeckState where
  notebook : List WordEntry
  fcIndex : Nat
  fcFlipped : Bool
  fcSource : FcSource
  verbFilter : VerbFilter
deriving Repr, DecidableEq

/-- `getCards()`: the active card list, recomputed from live state on
every render. -/
def deckCards (catalog : List StaticVerb) (s : DeckState) : List Card :=
  match s.fcSource with
  | FcSource.NOTEBOOK => s.notebook.map Card.entry
  | FcSource.VERBS => (catalog.filter (verbMatches s.verbFilter)).map Card.verb

/-- `i < cards.length - 1 ? i + 1 : 0`. -/
def nextIndex (count i : Nat) : Nat :=
  if i < count - 1 then i + 1 else 0

/-- `i > 0 ? i - 1 : cards.length - 1`. -/
def prevIndex (count i : Nat) : Nat :=
  if 0 < i then i - 1 else count - 1

def nextCard (catalog : List StaticVerb) (s : DeckState) : DeckState :=
  { s with fcFlipped := false,
           fcIndex := nextIndex (deckCards catalog s).length s.fcIndex }

def prevCard (catalog : List StaticVerb) (s : DeckState) : DeckState :=
  { s with fcFlipped := false,
           fcIndex := prevIndex (deckCards catalog s).length s.fcIndex }

/-- Changing the deck source: the effect on `[fcSource, verbFilter]`
resets index and flip. -/
def setDeckSource (s : DeckState) (src : FcSource) : DeckState :=
  { s with fcSource := src, fcIndex := 0, fcFlipped := false }

/-- Changing the verb-type filter: same reset effect. -/
def setDeckFilter (s : DeckState) (f : VerbFilter) : DeckState :=
  { s with verbFilter := f, fcIndex := 0, fcFlipped := false }

/-- `toggleSave` as seen from the deck: it rewrites the notebook and
touches nothing else — in particular not `fcIndex`. -/
def DeckState.applyToggleSave (s : DeckState) (entry : WordEntry) : DeckState :=
  { s with notebook := toggleSave entry s.notebook }

def deckTwoEntries : DeckState :=
  { notebook := [sampleCasa, sampleLivro]
    fcIndex := 0
    fcFlipped := false
    fcSource := FcSource.NOTEBOOK
    verbFilter := VerbFilter.ALL }

/-- Claim C7 is violated: starting from a two-entry notebook deck, one
`next()` (index 1) followed by unsaving the second entry leaves the deck
with one card but `fcIndex = 1`, outside the valid range `0 ≤ index <
count` — the index is only reset on source/filter changes, not on
notebook mutations.  (At this state the renderer evaluates
`'term' in cards[1]` on `undefined` and throws.) -/
theorem c7_index_leaves_range :
    ((nextCard [] deckTwoEntries).applyToggleSave sampleLivro).fcIndex = 1 ∧
    (deckCards [] ((nextCard [] deckTwoEntries).applyToggleSave sampleLivro)).length
      = 1 ∧
    ¬ (((nextCard [] deckTwoEntries).applyToggleSave sampleLivro).fcIndex <
        (deckCards [] ((nextCard [] deckTwoEntries).applyToggleSave
          sampleLivro)).length) := by
  decide

/- Back-translation extraction (renderFlashcards, lines 739-744):

```
let translation = '';
if (currentCard) {
    if ('cn' in currentCard) translation = currentCard.cn; // Static Verb
    else if ('sentence_analysis' in currentCard && currentCard.sentence_analysis) translation = currentCard.sentence_analysis.translation; // Sentence
    else if ('definition' in currentCard) translation = currentCard.definition || ''; // Word
}
```
Of the two card shapes only `StaticVerb` carries a `cn` property, so the
first probe selects exactly the verb cards; for entries the second probe
tests that `sentence_analysis` is present and non-null, and the last
falls back to `definition || ''`. -/

def cardTranslation : Card → String
  | Card.verb v => v.cn
  | Card.entry e =>
      match e.sentence_analysis with
      | some sa => sa.translation
      | none => e.definition.getD ""

/-- The Entry-model invariant (spec §3): exactly one variant's fields
are populated, governed by `is_sentence`. -/
def WordEntry.wellFormed (e : WordEntry) : Prop :=
  (e.is_sentence = true →
    e.sentence_analysis.isSome = true ∧ e.definition = none) ∧
  (e.is_sentence = false →
    e.sentence_analysis = none ∧ e.definition.isSome = true)

/-- Claim C8: for a well-formed entry card the extracted back
translation is the sentence translation when the card is a sentence
entry, else the word's definition; for a static-verb card it is the `cn`
field — the unified three-way fallback. -/
theorem c8_back_translation_priority (e : WordEntry) (v : StaticVerb)
    (hwf : e.wellFormed) :
    (e.is_sentence = true → ∃ sa, e.sentence_analysis = some sa ∧
      cardTranslation (Card.entry e) = sa.translation) ∧
    (e.is_sentence = false → ∃ d, e.definition = some d ∧
      cardTranslation (Card.entry e) = d) ∧
    cardTranslation (Card.verb v) = v.cn := by
  refine ⟨?_, ?_, rfl⟩
  · intro hs
    obtain ⟨hsome, -⟩ := hwf.1 hs
    obtain ⟨sa, hsa⟩ := Option.isSome_iff_exists.mp hsome
    refine ⟨sa, hsa, ?_⟩
    simp [cardTranslation, hsa]
  · intro hs
    obtain ⟨hnone, hdef⟩ := hwf.2 hs
    obtain ⟨d, hd⟩ := Option.isSome_iff_exists.mp hdef
    refine ⟨d, hd, ?_⟩
    simp [cardTranslation, hnone, hd]

/-- A sentence entry for the C8 witness. -/
def sampleSentence : WordEntry :=
  { id := "3"
    term := "Eu gosto de ler"
    original_query := some "我喜欢读书"
    is_sentence := true
    definition := none
    definition_en := none
    ipa := none
    examples := none
    synonyms := none
    etymology := none
    conjugations := none
    sentence_analysis := some
      { translation := "我喜欢读书"
        breakdown := []
        grammar_notes := ""
        cultural_context := "" }
    casual_explanation := ""
    timestamp := 0 }

def sampleVerb : StaticVerb :=
  { word := "falar", cn := "说话", type := VerbType.ar, examples := none }

/-- Claim C8 witness: the fallback evaluated on a concrete sentence
entry and a concrete static verb. -/
theorem c8_back_translation_witness :
    sampleSentence.wellFormed ∧
    ((sampleSentence.is_sentence = true →
        ∃ sa, sampleSentence.sentence_analysis = some sa ∧
          cardTranslation (Card.entry sampleSentence) = sa.translation) ∧
      (sampleSentence.is_sentence = false →
        ∃ d, sampleSentence.definition = some d ∧
          cardTranslation (Card.entry sampleSentence) = d) ∧
      cardTranslation (Card.verb sampleVerb) = sampleVerb.cn) :=
  ⟨by unfold WordEntry.wellFormed; decide,
    c8_back_translation_priority sampleSentence sampleVerb
      (by unfold WordEntry.wellFormed; decide)⟩

/-- Claim C9: on a non-empty deck with a valid index, `next()` at the
last card wraps to 0, `previous()` at 0 wraps to the last card, all
other positions move by one, and both operations unflip the card. -/
theorem c9_navigation_wraps (catalog : List StaticVerb) (s : DeckState)
    (hpos : 0 < (deckCards catalog s).length)
    (hidx : s.fcIndex < (deckCards catalog s).length) :
    (s.fcIndex = (deckCards catalog s).length - 1 →
      (nextCard catalog s).fcIndex = 0) ∧
    (s.fcIndex = 0 →
      (prevCard catalog s).fcIndex = (deckCards catalog s).length - 1) ∧
    (s.fcIndex < (deckCards catalog s).length - 1 →
      (nextCard catalog s).fcIndex = s.fcIndex + 1) ∧
    (0 < s.fcIndex → (prevCard catalog s).fcIndex = s.fcIndex - 1) ∧
    (nextCard catalog s).fcFlipped = false ∧
    (prevCard catalog s).fcFlipped = false := by
  refine ⟨?_, ?_, ?_, ?_, rfl, rfl⟩
  · intro h
    show nextIndex (deckCards catalog s).length s.fcIndex = 0
    rw [nextIndex, if_neg (by omega)]
  · intro h
    show prevIndex (deckCards catalog s).length s.fcIndex =
      (deckCards catalog s).length - 1
    rw [prevIndex, if_neg (by omega)]
  · intro h
    show nextIndex (deckCards catalog s).length s.fcIndex = s.fcIndex + 1
    rw [nextIndex, if_pos h]
  · intro h
    show prevIndex (deckCards catalog s).length s.fcIndex = s.fcIndex - 1
    rw [prevIndex, if_pos h]

def deckThreeVerbs : DeckState :=
  { notebook := []
    fcIndex := 2
    fcFlipped := true
    fcSource := FcSource.VERBS
    verbFilter := VerbFilter.AR }

def sampleCatalog : List StaticVerb :=
  [ { word := "falar", cn := "说话", type := VerbType.ar, examples := none },
    { word := "comer", cn := "吃", type := VerbType.er, examples := none },
    { word := "amar", cn := "爱", type := VerbType.ar, examples := none },
    { word := "cantar", cn := "唱歌", type := VerbType.ar, examples := none } ]

/-- Claim C9 witness: on a 3-card filtered verb deck at the last index,
`next()` wraps to 0, and at index 0 `previous()` wraps to 2; both clear
the flip flag. -/
theorem c9_navigation_witness :
    0 < (deckCards sampleCatalog deckThreeVerbs).length ∧
    deckThreeVerbs.fcIndex < (deckCards sampleCatalog deckThreeVerbs).length ∧
    ((deckThreeVerbs.fcIndex = (deckCards sampleCatalog deckThreeVerbs).length - 1 →
        (nextCard sampleCatalog deckThreeVerbs).fcIndex = 0) ∧
      (deckThreeVerbs.fcIndex = 0 →
        (prevCard sampleCatalog deckThreeVerbs).fcIndex =
          (deckCards sampleCatalog deckThreeVerbs).length - 1) ∧
      (deckThreeVerbs.fcIndex < (deckCards sampleCatalog deckThreeVerbs).length - 1 →
        (nextCard sampleCatalog deckThreeVerbs).fcIndex =
          deckThreeVerbs.fcIndex + 1) ∧
      (0 < deckThreeVerbs.fcIndex →
        (prevCard sampleCatalog deckThreeVerbs).fcIndex =
          deckThreeVerbs.fcIndex - 1) ∧
      (nextCard sampleCatalog deckThreeVerbs).fcFlipped = false ∧
      (prevCard sampleCatalog deckThreeVerbs).fcFlipped = false) :=
  ⟨by decide, by decide,
    c9_navigation_wraps sampleCatalog deckThreeVerbs (by decide) (by decide)⟩
